import Mathlib

/-!
# Verification of the mu51 8051 emulator core

A shallow embedding of the decode table, register-file primitives and
instruction handlers of the mu51 package, with theorems checking the
behaviour documented for them.  Go `uint8`/`uint16` values are modelled
as `Nat` with explicit `% 256` / `% 65536` at the points where the Go
code converts or wraps.
-/

namespace Mu51

/-- The mnemonic enumeration of the Go `OpCode` type, in source order. -/
inductive OpCode where
  | ACALL | ADD | ADDC | AJMP | ANL | CJNE | CLR | CPL | DA | DEC | DIV | DJNZ
  | INC | JB | JBC | JC | JMP | JNB | JNC | JNZ | JZ | LCALL | LJMP | MOV
  | MOVC | MOVX | MUL | NOP | ORL | POP | PUSH | RET | RETI | RL | RLC | RR
  | RRC | SJMP | SETB | SUBB | SWAP | XCH | XCHD | XRL | ERR
deriving DecidableEq

/-- One entry of the Go `decodeTable`: instruction byte length and mnemonic. -/
structure decoded where
  len : Nat
  op : OpCode
deriving DecidableEq

/-- Rows 0x00-0x0F of the decode table. -/
def decodeRow0 : List decoded := [
  ⟨1, .NOP⟩, ⟨2, .AJMP⟩, ⟨3, .LJMP⟩, ⟨1, .RR⟩, ⟨1, .INC⟩, ⟨2, .INC⟩, ⟨1, .INC⟩, ⟨1, .INC⟩,
  ⟨1, .INC⟩, ⟨1, .INC⟩, ⟨1, .INC⟩, ⟨1, .INC⟩, ⟨1, .INC⟩, ⟨1, .INC⟩, ⟨1, .INC⟩, ⟨1, .INC⟩]

/-- Rows 0x10-0x1F of the decode table. -/
def decodeRow1 : List decoded := [
  ⟨3, .JBC⟩, ⟨2, .ACALL⟩, ⟨3, .LCALL⟩, ⟨1, .RRC⟩, ⟨1, .DEC⟩, ⟨2, .DEC⟩, ⟨1, .DEC⟩, ⟨1, .DEC⟩,
  ⟨1, .DEC⟩, ⟨1, .DEC⟩, ⟨1, .DEC⟩, ⟨1, .DEC⟩, ⟨1, .DEC⟩, ⟨1, .DEC⟩, ⟨1, .DEC⟩, ⟨1, .DEC⟩]

/-- Rows 0x20-0x2F of the decode table. -/
def decodeRow2 : List decoded := [
  ⟨3, .JB⟩, ⟨2, .AJMP⟩, ⟨1, .RET⟩, ⟨1, .RL⟩, ⟨2, .ADD⟩, ⟨2, .ADD⟩, ⟨1, .ADD⟩, ⟨1, .ADD⟩,
  ⟨1, .ADD⟩, ⟨1, .ADD⟩, ⟨1, .ADD⟩, ⟨1, .ADD⟩, ⟨1, .ADD⟩, ⟨1, .ADD⟩, ⟨1, .ADD⟩, ⟨1, .ADD⟩]

/-- Rows 0x30-0x3F of the decode table. -/
def decodeRow3 : List decoded := [
  ⟨3, .JNB⟩, ⟨2, .ACALL⟩, ⟨1, .RETI⟩, ⟨1, .RLC⟩, ⟨2, .ADDC⟩, ⟨2, .ADDC⟩, ⟨1, .ADDC⟩, ⟨1, .ADDC⟩,
  ⟨1, .ADDC⟩, ⟨1, .ADDC⟩, ⟨1, .ADDC⟩, ⟨1, .ADDC⟩, ⟨1, .ADDC⟩, ⟨1, .ADDC⟩, ⟨1, .ADDC⟩, ⟨1, .ADDC⟩]

/-- Rows 0x40-0x4F of the decode table. -/
def decodeRow4 : List decoded := [
  ⟨2, .JC⟩, ⟨2, .AJMP⟩, ⟨2, .ORL⟩, ⟨3, .ORL⟩, ⟨2, .ORL⟩, ⟨2, .ORL⟩, ⟨1, .ORL⟩, ⟨1, .ORL⟩,
  ⟨1, .ORL⟩, ⟨1, .ORL⟩, ⟨1, .ORL⟩, ⟨1, .ORL⟩, ⟨1, .ORL⟩, ⟨1, .ORL⟩, ⟨1, .ORL⟩, ⟨1, .ORL⟩]

/-- Rows 0x50-0x5F of the decode table. -/
def decodeRow5 : List decoded := [
  ⟨2, .JNC⟩, ⟨2, .ACALL⟩, ⟨2, .ANL⟩, ⟨3, .ANL⟩, ⟨2, .ANL⟩, ⟨2, .ANL⟩, ⟨1, .ANL⟩, ⟨1, .ANL⟩,
  ⟨1, .ANL⟩, ⟨1, .ANL⟩, ⟨1, .ANL⟩, ⟨1, .ANL⟩, ⟨1, .ANL⟩, ⟨1, .ANL⟩, ⟨1, .ANL⟩, ⟨1, .ANL⟩]

/-- Rows 0x60-0x6F of the decode table. -/
def decodeRow6 : List decoded := [
  ⟨2, .JZ⟩, ⟨2, .AJMP⟩, ⟨2, .XRL⟩, ⟨3, .XRL⟩, ⟨2, .XRL⟩, ⟨2, .XRL⟩, ⟨1, .XRL⟩, ⟨1, .XRL⟩,
  ⟨1, .XRL⟩, ⟨1, .XRL⟩, ⟨1, .XRL⟩, ⟨1, .XRL⟩, ⟨1, .XRL⟩, ⟨1, .XRL⟩, ⟨1, .XRL⟩, ⟨1, .XRL⟩]

/-- Rows 0x70-0x7F of the decode table. -/
def decodeRow7 : List decoded := [
  ⟨2, .JNZ⟩, ⟨2, .ACALL⟩, ⟨2, .ORL⟩, ⟨1, .JMP⟩, ⟨2, .MOV⟩, ⟨3, .MOV⟩, ⟨2, .MOV⟩, ⟨2, .MOV⟩,
  ⟨2, .MOV⟩, ⟨2, .MOV⟩, ⟨2, .MOV⟩, ⟨2, .MOV⟩, ⟨2, .MOV⟩, ⟨2, .MOV⟩, ⟨2, .MOV⟩, ⟨2, .MOV⟩]

/-- Rows 0x80-0x8F of the decode table. -/
def decodeRow8 : List decoded := [
  ⟨2, .SJMP⟩, ⟨2, .AJMP⟩, ⟨2, .ANL⟩, ⟨1, .MOVC⟩, ⟨1, .DIV⟩, ⟨3, .MOV⟩, ⟨2, .MOV⟩, ⟨2, .MOV⟩,
  ⟨2, .MOV⟩, ⟨2, .MOV⟩, ⟨2, .MOV⟩, ⟨2, .MOV⟩, ⟨2, .MOV⟩, ⟨2, .MOV⟩, ⟨2, .MOV⟩, ⟨2, .MOV⟩]

/-- Rows 0x90-0x9F of the decode table. -/
def decodeRow9 : List decoded := [
  ⟨3, .MOV⟩, ⟨2, .ACALL⟩, ⟨2, .MOV⟩, ⟨1, .MOVC⟩, ⟨2, .SUBB⟩, ⟨2, .SUBB⟩, ⟨1, .SUBB⟩, ⟨1, .SUBB⟩,
  ⟨1, .SUBB⟩, ⟨1, .SUBB⟩, ⟨1, .SUBB⟩, ⟨1, .SUBB⟩, ⟨1, .SUBB⟩, ⟨1, .SUBB⟩, ⟨1, .SUBB⟩, ⟨1, .SUBB⟩]

/-- Rows 0xA0-0xAF of the decode table. -/
def decodeRowA : List decoded := [
  ⟨2, .ORL⟩, ⟨2, .AJMP⟩, ⟨2, .MOV⟩, ⟨1, .INC⟩, ⟨1, .MUL⟩, ⟨1, .ERR⟩, ⟨2, .MOV⟩, ⟨2, .MOV⟩,
  ⟨2, .MOV⟩, ⟨2, .MOV⟩, ⟨2, .MOV⟩, ⟨2, .MOV⟩, ⟨2, .MOV⟩, ⟨2, .MOV⟩, ⟨2, .MOV⟩, ⟨2, .MOV⟩]

/-- Rows 0xB0-0xBF of the decode table. -/
def decodeRowB : List decoded := [
  ⟨2, .ANL⟩, ⟨2, .ACALL⟩, ⟨2, .CPL⟩, ⟨1, .CPL⟩, ⟨3, .CJNE⟩, ⟨3, .CJNE⟩, ⟨3, .CJNE⟩, ⟨3, .CJNE⟩,
  ⟨3, .CJNE⟩, ⟨3, .CJNE⟩, ⟨3, .CJNE⟩, ⟨3, .CJNE⟩, ⟨3, .CJNE⟩, ⟨3, .CJNE⟩, ⟨3, .CJNE⟩, ⟨3, .CJNE⟩]

/-- Rows 0xC0-0xCF of the decode table. -/
def decodeRowC : List decoded := [
  ⟨2, .PUSH⟩, ⟨2, .AJMP⟩, ⟨2, .CLR⟩, ⟨1, .CLR⟩, ⟨1, .SWAP⟩, ⟨2, .XCH⟩, ⟨1, .XCH⟩, ⟨1, .XCH⟩,
  ⟨1, .XCH⟩, ⟨1, .XCH⟩, ⟨1, .XCH⟩, ⟨1, .XCH⟩, ⟨1, .XCH⟩, ⟨1, .XCH⟩, ⟨1, .XCH⟩, ⟨1, .XCH⟩]

/-- Rows 0xD0-0xDF of the decode table. -/
def decodeRowD : List decoded := [
  ⟨2, .POP⟩, ⟨2, .ACALL⟩, ⟨2, .SETB⟩, ⟨1, .SETB⟩, ⟨1, .DA⟩, ⟨3, .DJNZ⟩, ⟨1, .XCHD⟩, ⟨1, .XCHD⟩,
  ⟨2, .DJNZ⟩, ⟨2, .DJNZ⟩, ⟨2, .DJNZ⟩, ⟨2, .DJNZ⟩, ⟨2, .DJNZ⟩, ⟨2, .DJNZ⟩, ⟨2, .DJNZ⟩, ⟨2, .DJNZ⟩]

/-- Rows 0xE0-0xEF of the decode table. -/
def decodeRowE : List decoded := [
  ⟨1, .MOVX⟩, ⟨2, .AJMP⟩, ⟨1, .MOVX⟩, ⟨1, .MOVX⟩, ⟨1, .CLR⟩, ⟨2, .MOV⟩, ⟨1, .MOV⟩, ⟨1, .MOV⟩,
  ⟨1, .MOV⟩, ⟨1, .MOV⟩, ⟨1, .MOV⟩, ⟨1, .MOV⟩, ⟨1, .MOV⟩, ⟨1, .MOV⟩, ⟨1, .MOV⟩, ⟨1, .MOV⟩]

/-- Rows 0xF0-0xFF of the decode table. -/
def decodeRowF : List decoded := [
  ⟨1, .MOVX⟩, ⟨2, .ACALL⟩, ⟨1, .MOVX⟩, ⟨1, .MOVX⟩, ⟨1, .CPL⟩, ⟨2, .MOV⟩, ⟨1, .MOV⟩, ⟨1, .MOV⟩,
  ⟨1, .MOV⟩, ⟨1, .MOV⟩, ⟨1, .MOV⟩, ⟨1, .MOV⟩, ⟨1, .MOV⟩, ⟨1, .MOV⟩, ⟨1, .MOV⟩, ⟨1, .MOV⟩]

/-- The 256-entry jump table `decodeTable` from the source, index = opcode byte. -/
def decodeTable : List decoded :=
  decodeRow0 ++ decodeRow1 ++ decodeRow2 ++ decodeRow3 ++ decodeRow4 ++ decodeRow5 ++
  decodeRow6 ++ decodeRow7 ++ decodeRow8 ++ decodeRow9 ++ decodeRowA ++ decodeRowB ++
  decodeRowC ++ decodeRowD ++ decodeRowE ++ decodeRowF

/-- The PSW Parity bit mask (bit 0). -/
def ParityBit : Nat := 0x01

/-- The PSW User bit mask (bit 1). -/
def UserBit : Nat := 0x02

/-- The PSW Overflow bit mask (bit 2). -/
def OverFlowBit : Nat := 0x04

/-- The PSW RS0 bank-select bit mask (bit 3). -/
def RS0Bit : Nat := 0x08

/-- The PSW RS1 bank-select bit mask (bit 4). -/
def RS1Bit : Nat := 0x10

/-- The PSW user Flag bit mask (bit 5). -/
def FlagBit : Nat := 0x20

/-- The PSW Auxiliary carry bit mask (bit 6). -/
def AuxCarryBit : Nat := 0x40

/-- The PSW Carry bit mask (bit 7). -/
def CarryBit : Nat := 0x80

/-- Go `x &^ m` on `uint8` operands: clear in `x` the bits of the mask `m`. -/
def andNot8 (x m : Nat) : Nat := x &&& (255 ^^^ m)

/-- The `ALU` register file: 256 bytes of internal RAM plus the special
registers.  Addresses and stored values are kept reduced `% 256` by the
operations, mirroring the `uint8` types of the Go struct. -/
structure ALU where
  InternalRAM : Nat → Nat
  StackPtr : Nat
  DataPtr : Nat
  ProgStatus : Nat
  Accum : Nat
  BReg : Nat
  ProgCount : Nat

/-- A single store into internal RAM, as Go `a.InternalRAM[addr] = v`.
Callers pass `addr` and `v` already reduced to byte range. -/
def writeRAM (ram : Nat → Nat) (addr v : Nat) : Nat → Nat :=
  fun i => if i = addr then v else ram i

/-- `PushWord`: low byte of the word at `StackPtr+1`, high byte at
`StackPtr+2`, then `StackPtr += 2`, all `uint8` arithmetic. -/
def ALU.PushWord (a : ALU) (w : Nat) : ALU :=
  { a with
    InternalRAM :=
      writeRAM (writeRAM a.InternalRAM ((a.StackPtr + 1) % 256) (w % 256))
        ((a.StackPtr + 2) % 256) ((w >>> 8) % 256),
    StackPtr := (a.StackPtr + 2) % 256 }

/-- `PopWord`: high byte read at `StackPtr`, low byte at `StackPtr-1`
(wrapping `uint8` arithmetic), composed `high<<8 | low`, then
`StackPtr -= 2`.  Returns the updated state and the word. -/
def ALU.PopWord (a : ALU) : ALU × Nat :=
  ({ a with StackPtr := (a.StackPtr + 254) % 256 },
   (a.InternalRAM (a.StackPtr % 256) <<< 8) ||| a.InternalRAM ((a.StackPtr + 255) % 256))

/-- `InstrAJMP`: absolute jump inside the 2 KiB page of the following
instruction; Go `a.ProgCount = (a.ProgCount+2)&0xF800 + rel&0x07FF`
in `uint16` arithmetic. -/
def ALU.InstrAJMP (a : ALU) (rel : Nat) : ALU :=
  { a with
    ProgCount := ((((a.ProgCount + 2) % 65536) &&& 0xF800) + (rel &&& 0x07FF)) % 65536 }

/-- `InstrRET`: restore the program counter from the word on the stack. -/
def ALU.InstrRET (a : ALU) : ALU :=
  { (a.PopWord).1 with ProgCount := (a.PopWord).2 }

/-- `InstrLCALL`: push the address of the next instruction
(`ProgCount + 3`, `uint16` wrap) and load the 16-bit target. -/
def ALU.InstrLCALL (a : ALU) (addr : Nat) : ALU :=
  { a.PushWord ((a.ProgCount + 3) % 65536) with ProgCount := addr % 65536 }

/-- `InstrMUL`: Go computes `res := uint16(Accum) * uint16(BReg)`, stores
`uint8(res >> 16)` into `BReg` and `uint8(res)` into `Accum`, clears
Carry, and sets Overflow iff `res > 255`. -/
def ALU.InstrMUL (a : ALU) : ALU :=
  { a with
    BReg := (((a.Accum * a.BReg) % 65536) >>> 16) % 256,
    Accum := ((a.Accum * a.BReg) % 65536) % 256,
    ProgStatus :=
      if (a.Accum * a.BReg) % 65536 > 255 then
        andNot8 a.ProgStatus CarryBit ||| OverFlowBit
      else andNot8 (andNot8 a.ProgStatus CarryBit) OverFlowBit }

/-- `regAddr`: the register-address helper exactly as in the source; it
computes the bank base `((ProgStatus >> 3) & 0x03) * 8` and never uses
its argument `r`. -/
def ALU.regAddr (a : ALU) (r : Nat) : Nat :=
  ((a.ProgStatus >>> 3) &&& 0x03) * 8

/-- `InstrADDLit`: the handler for ADD with an immediate literal; its Go
body is empty, so the state is returned unchanged. -/
def ALU.InstrADDLit (a : ALU) (literal : Nat) : ALU :=
  a

/-- The sole error value declared by the package: `ErrUnknownOpCode`. -/
inductive GoError where
  | unknownOpCode
deriving DecidableEq

/-- A `CodeMemory` capability: a byte read that can fail (`none` models an
I/O error or short read from `ReadAt`) and a size. -/
structure CodeMem where
  readByte : Nat → Option Nat
  size : Nat

/-- An external `RAM` capability, modelled as a byte store with a size. -/
structure RAMMem where
  data : Nat → Nat
  size : Nat

/-- The `CPU`: the embedded `ALU` register file, the SFR access callbacks
and the borrowed external memories. -/
structure CPU where
  alu : ALU
  ReadCallbacks : Nat → Option (Unit → Nat)
  WriteCallbacks : Nat → Option (Nat → Unit)
  ExtRAM : RAMMem
  ProgMem : CodeMem

/-- The Go `Operation` type: a permutation of the CPU that may fail. -/
def Operation : Type := CPU → CPU × Option GoError

/-- `CPU.Step` as written in the source: `return nil` and nothing else. -/
def CPU.Step (c : CPU) : CPU × Option GoError :=
  (c, none)

/-- `n` consecutive byte reads starting at `off`, each substituting the
zero-initialised buffer byte when the read fails, as the Go fetch path
does after discarding `ReadAt` errors. -/
def readBytes (c : CodeMem) (off : Nat) : Nat → List Nat
  | 0 => []
  | n + 1 => (c.readByte off).getD 0 :: readBytes c (off + 1) n

/-- `ReadInstruction`: reads the opcode byte at `offset` (read errors
discarded), classifies it, and when `len > 1` reads the Go slice
`b[1:len-1]` — that is `len-2` bytes — again at `offset`, returning the
first `len` bytes of the buffer and always a `none` error. -/
def ReadInstruction (c : CodeMem) (offset : Nat) : OpCode × List Nat × Option GoError :=
  let b0 := (c.readByte offset).getD 0
  let d := decodeTable.getD b0 ⟨1, .NOP⟩
  let rest := if 1 < d.len then readBytes c offset (d.len - 2) else []
  let b := [b0] ++ rest ++ List.replicate (2 - rest.length) 0
  (d.op, b.take d.len, none)

/-- `DecodeInstruction`: the Go switch over the mnemonic; every listed
case has an empty body and the function ends with `return nil`, so every
mnemonic yields the nil operation. -/
def DecodeInstruction (op : OpCode) (data : List Nat) : Option Operation :=
  match op with
  | .ANL => none
  | .CJNE => none
  | .CLR => none
  | .CPL => none
  | .DA => none
  | .DEC => none
  | .DIV => none
  | .DJNZ => none
  | .INC => none
  | .JB => none
  | .JBC => none
  | .JC => none
  | .JMP => none
  | .JNB => none
  | .JNC => none
  | .JNZ => none
  | .JZ => none
  | .MOV => none
  | .MOVC => none
  | .MOVX => none
  | .NOP => none
  | .ORL => none
  | .RL => none
  | .RLC => none
  | .RR => none
  | .RRC => none
  | .SJMP => none
  | .SETB => none
  | .SUBB => none
  | .XCHD => none
  | .XRL => none
  | _ => none

/-- An all-zero register file, used to build concrete test states. -/
def ALU0 : ALU :=
  { InternalRAM := fun _ => 0, StackPtr := 0, DataPtr := 0, ProgStatus := 0,
    Accum := 0, BReg := 0, ProgCount := 0 }

/-- A code memory holding the three bytes `0x02 0x34 0x56` (an `LJMP
0x3456` instruction) and nothing else. -/
def ljmpMem : CodeMem :=
  { readByte := fun i =>
      if i = 0 then some 0x02 else if i = 1 then some 0x34 else
      if i = 2 then some 0x56 else none,
    size := 3 }

/-- A code memory whose every read reports an error. -/
def failMem : CodeMem :=
  { readByte := fun _ => none, size := 0 }

/-- A register file with the accumulator and B register both set to 200. -/
def mulALU : ALU := { ALU0 with Accum := 200, BReg := 200 }

/-- A register file with the accumulator set to `0xFF`. -/
def addALU : ALU := { ALU0 with Accum := 0xFF }

/-- A register file with bank 3 selected in the status word. -/
def bank3ALU : ALU := { ALU0 with ProgStatus := RS1Bit ||| RS0Bit }

/-- C1: `regAddr` computes only the bank base and ignores the register
index: with bank 0 selected, `regAddr 7 = regAddr 0 = 0` rather than the
claimed `bankBase + 7 = 7`; with bank 3 selected (`bankBase = 24`),
`regAddr 5 = 24` rather than the claimed `29`. -/
theorem regAddr_ignores_register_index :
    ALU0.regAddr 0 = 0 ∧ ALU0.regAddr 7 = 0 ∧ ALU0.regAddr 7 = ALU0.regAddr 0 ∧
    ALU0.regAddr 7 ≠ 0 + 7 ∧
    bank3ALU.regAddr 0 = 24 ∧ bank3ALU.regAddr 5 = 24 ∧ bank3ALU.regAddr 5 ≠ 24 + 5 := by
  decide

/-- C2: the fetch path substitutes zero bytes and discards errors.
On the three-byte `LJMP` image it returns the opcode byte again as the
first operand byte and `0x00` as the second (the remaining bytes are
read from `offset`, not `offset+1`, and only `len-2` of them), with a
nil error; on a memory whose every read fails it still returns a fetched
`NOP` with a substituted zero byte and a nil error instead of a fault. -/
theorem readInstruction_substitutes_bytes_and_ignores_errors :
    ReadInstruction ljmpMem 0 = (OpCode.LJMP, [0x02, 0x02, 0x00], none) ∧
    ReadInstruction failMem 0 = (OpCode.NOP, [0x00], none) := by
  constructor
  · rfl
  · rfl

/-- C3: `InstrMUL` at `Accum = BReg = 200`: the low product byte `0x40`
lands in the accumulator, Carry is cleared and Overflow set, but `BReg`
becomes `0` — the Go code shifts the 16-bit product right by 16, so the
high byte `0x9C` is lost. -/
theorem instrMUL_loses_high_byte :
    mulALU.InstrMUL.Accum = 0x40 ∧
    mulALU.InstrMUL.BReg = 0 ∧
    mulALU.InstrMUL.BReg ≠ 0x9C ∧
    mulALU.InstrMUL.ProgStatus &&& CarryBit = 0 ∧
    mulALU.InstrMUL.ProgStatus &&& OverFlowBit = OverFlowBit := by
  decide

/-- C4: the decode table maps `0xA5` to the `ERR` sentinel, but
`DecodeInstruction` yields the nil operation for it (as for every
mnemonic) instead of failing with `ErrUnknownOpCode` — the dispatch
has no error channel at all. -/
theorem decodeInstruction_0xA5_yields_nil :
    (decodeTable.getD 0xA5 ⟨1, .NOP⟩).op = OpCode.ERR ∧
    DecodeInstruction (decodeTable.getD 0xA5 ⟨1, .NOP⟩).op [0xA5] = none := by
  constructor
  · decide
  · rfl

/-- C9: `InstrADDLit` has an empty body: adding the immediate literal
`0x01` to accumulator `0xFF` leaves the accumulator at `0xFF` (not the
claimed `0x00`) and writes no flags. -/
theorem instrADDLit_is_a_stub :
    (addALU.InstrADDLit 0x01).Accum = 0xFF ∧
    (addALU.InstrADDLit 0x01).Accum ≠ 0x00 ∧
    (addALU.InstrADDLit 0x01).ProgStatus = addALU.ProgStatus := by
  decide

/-- C10: `CPU.Step` returns a nil error and leaves the CPU — in
particular the whole register file and the program counter — unchanged:
no fetch or dispatch happens. -/
theorem cpu_step_returns_nil_and_changes_nothing (c : CPU) :
    c.Step.2 = none ∧ c.Step.1 = c ∧ c.Step.1.alu.ProgCount = c.alu.ProgCount := by
  exact ⟨rfl, rfl, rfl⟩

set_option maxRecDepth 8192 in
/-- C8: the decode table has 256 entries; every entry carries a length
in `{1, 2, 3}`, and the `ERR` sentinel appears exactly at opcode `0xA5`. -/
theorem decodeTable_total_lengths_and_sentinel :
    decodeTable.length = 256 ∧
    ∀ b : Fin 256,
      ((decodeTable.getD b.val ⟨1, .NOP⟩).len = 1 ∨
       (decodeTable.getD b.val ⟨1, .NOP⟩).len = 2 ∨
       (decodeTable.getD b.val ⟨1, .NOP⟩).len = 3) ∧
      ((decodeTable.getD b.val ⟨1, .NOP⟩).op = OpCode.ERR ↔ b.val = 0xA5) := by
  decide

/-- Recomposing the two bytes stored by `PushWord` yields the word back:
`(high << 8) ||| low = w` for `w < 2^16`. -/
theorem bytes_recompose (w : Nat) (h : w < 65536) :
    (((w >>> 8) % 256) <<< 8) ||| (w % 256) = w := by
  have h2p8 : (2 : Nat) ^ 8 = 256 := by norm_num
  have hs : w >>> 8 = w / 256 := by
    rw [Nat.shiftRight_eq_div_pow, h2p8]
  have hd : (w / 256) % 256 = w / 256 := by omega
  have hlt : w % 256 < 2 ^ 8 := by rw [h2p8]; omega
  have key := Nat.mul_add_lt_is_or hlt (w / 256)
  rw [h2p8] at key
  rw [hs, hd, Nat.shiftLeft_eq, h2p8, Nat.mul_comm, ← key]
  omega

/-- C5: a `PushWord` immediately followed by `PopWord` returns the word
pushed and restores the stack pointer. -/
theorem pushWord_popWord_roundtrip (a : ALU) (w : Nat)
    (hsp : a.StackPtr < 256) (hw : w < 65536) :
    ((a.PushWord w).PopWord).2 = w ∧
    ((a.PushWord w).PopWord).1.StackPtr = a.StackPtr := by
  have e1 : (a.StackPtr + 2) % 256 % 256 = (a.StackPtr + 2) % 256 := by omega
  have e2 : ((a.StackPtr + 2) % 256 + 255) % 256 = (a.StackPtr + 1) % 256 := by omega
  have ne1 : (a.StackPtr + 1) % 256 ≠ (a.StackPtr + 2) % 256 := by omega
  constructor
  · show ((writeRAM (writeRAM a.InternalRAM ((a.StackPtr + 1) % 256) (w % 256))
        ((a.StackPtr + 2) % 256) ((w >>> 8) % 256)) ((a.StackPtr + 2) % 256 % 256) <<< 8) |||
      (writeRAM (writeRAM a.InternalRAM ((a.StackPtr + 1) % 256) (w % 256))
        ((a.StackPtr + 2) % 256) ((w >>> 8) % 256)) (((a.StackPtr + 2) % 256 + 255) % 256) = w
    rw [e1, e2]
    unfold writeRAM
    rw [if_pos rfl, if_neg ne1, if_pos rfl]
    exact bytes_recompose w hw
  · show ((a.StackPtr + 2) % 256 + 254) % 256 = a.StackPtr
    omega

/-- C5 witness: pushing `0xABCD` with the stack pointer at `0x30` pops
back `0xABCD` and restores the stack pointer. -/
theorem pushWord_popWord_roundtrip_witness :
    ((({ ALU0 with StackPtr := 0x30 }).PushWord 0xABCD).PopWord).2 = 0xABCD ∧
    ((({ ALU0 with StackPtr := 0x30 }).PushWord 0xABCD).PopWord).1.StackPtr = 0x30 :=
  pushWord_popWord_roundtrip { ALU0 with StackPtr := 0x30 } 0xABCD (by decide) (by decide)

/-- C6: `InstrAJMP` sets the program counter to
`(programCounterAfter & 0xF800) | (offset & 0x7FF)` where
`programCounterAfter` is the program counter at the start of the 2-byte
instruction plus 2 (`uint16` wrap): the masked sum the code computes
coincides with the masked OR, the masks being disjoint.  In particular,
from `0x07FE` with offset `0x000` the new program counter is `0x0800`. -/
theorem instrAJMP_page_absolute_target :
    (∀ (a : ALU) (rel : Nat),
      (a.InstrAJMP rel).ProgCount =
        (((a.ProgCount + 2) % 65536) &&& 0xF800) ||| (rel &&& 0x7FF)) ∧
    (({ ALU0 with ProgCount := 0x07FE }).InstrAJMP 0x000).ProgCount = 0x0800 := by
  constructor
  · intro a rel
    show ((((a.ProgCount + 2) % 65536) &&& 0xF800) + (rel &&& 0x7FF)) % 65536 =
      (((a.ProgCount + 2) % 65536) &&& 0xF800) ||| (rel &&& 0x7FF)
    set x := (a.ProgCount + 2) % 65536 with hx
    have hB : rel &&& 2047 = rel % 2048 := by
      have h := Nat.and_pow_two_sub_one_eq_mod rel 11
      norm_num at h
      exact h
    have hA : (x &&& 63488) % 2048 = 0 := by
      have h := Nat.and_pow_two_sub_one_eq_mod (x &&& 63488) 11
      norm_num at h
      rw [← h, Nat.and_assoc, (by decide : (63488 : Nat) &&& 2047 = 0), Nat.and_zero]
    have hAle : x &&& 63488 ≤ 63488 := Nat.and_le_right
    have h2p11 : (2 : Nat) ^ 11 = 2048 := by norm_num
    have hlt : rel &&& 2047 < 2 ^ 11 := by rw [h2p11, hB]; omega
    have key := Nat.mul_add_lt_is_or hlt ((x &&& 63488) / 2048)
    rw [h2p11] at key
    have hq : 2048 * ((x &&& 63488) / 2048) = x &&& 63488 := by omega
    rw [hq] at key
    have hsum : (x &&& 63488) + (rel &&& 2047) < 65536 := by omega
    rw [Nat.mod_eq_of_lt hsum]
    exact key
  · decide

/-- The spec example state for `LCALL`: program counter `0x0100`, stack
pointer `0x07`. -/
def lcallALU : ALU := { ALU0 with ProgCount := 0x0100, StackPtr := 0x07 }

/-- C7: `InstrLCALL` pushes the return address `ProgCount + 3` (`uint16`
wrap) — low byte at `StackPtr+1`, high byte at `StackPtr+2`, ascending —
and loads the target; `InstrRET` then restores the program counter to
that return address and the stack pointer to its pre-call value. -/
theorem instrLCALL_return_address_and_instrRET (a : ALU) (addr : Nat)
    (hsp : a.StackPtr < 256) (ha : addr < 65536) :
    (a.InstrLCALL addr).ProgCount = addr ∧
    (a.InstrLCALL addr).InternalRAM ((a.StackPtr + 1) % 256) = (a.ProgCount + 3) % 256 ∧
    (a.InstrLCALL addr).InternalRAM ((a.StackPtr + 2) % 256) = (a.ProgCount + 3) % 65536 / 256 ∧
    ((a.InstrLCALL addr).InstrRET).ProgCount = (a.ProgCount + 3) % 65536 ∧
    ((a.InstrLCALL addr).InstrRET).StackPtr = a.StackPtr := by
  set w := (a.ProgCount + 3) % 65536 with hwdef
  have hw : w < 65536 := by omega
  have e1 : (a.StackPtr + 2) % 256 % 256 = (a.StackPtr + 2) % 256 := by omega
  have e2 : ((a.StackPtr + 2) % 256 + 255) % 256 = (a.StackPtr + 1) % 256 := by omega
  have ne1 : (a.StackPtr + 1) % 256 ≠ (a.StackPtr + 2) % 256 := by omega
  refine ⟨?_, ?_, ?_, ?_, ?_⟩
  · show addr % 65536 = addr
    omega
  · show writeRAM (writeRAM a.InternalRAM ((a.StackPtr + 1) % 256) (w % 256))
        ((a.StackPtr + 2) % 256) ((w >>> 8) % 256) ((a.StackPtr + 1) % 256) =
      (a.ProgCount + 3) % 256
    unfold writeRAM
    rw [if_neg ne1, if_pos rfl]
    omega
  · show writeRAM (writeRAM a.InternalRAM ((a.StackPtr + 1) % 256) (w % 256))
        ((a.StackPtr + 2) % 256) ((w >>> 8) % 256) ((a.StackPtr + 2) % 256) = w / 256
    unfold writeRAM
    rw [if_pos rfl, Nat.shiftRight_eq_div_pow]
    norm_num
    omega
  · show ((writeRAM (writeRAM a.InternalRAM ((a.StackPtr + 1) % 256) (w % 256))
        ((a.StackPtr + 2) % 256) ((w >>> 8) % 256)) ((a.StackPtr + 2) % 256 % 256) <<< 8) |||
      (writeRAM (writeRAM a.InternalRAM ((a.StackPtr + 1) % 256) (w % 256))
        ((a.StackPtr + 2) % 256) ((w >>> 8) % 256)) (((a.StackPtr + 2) % 256 + 255) % 256) = w
    rw [e1, e2]
    unfold writeRAM
    rw [if_pos rfl, if_neg ne1, if_pos rfl]
    exact bytes_recompose w hw
  · show ((a.StackPtr + 2) % 256 + 254) % 256 = a.StackPtr
    omega

/-- C7 witness: `LCALL 0x1234` from `0x0100` with the stack pointer at
`0x07` stores `0x03` at `0x08` and `0x01` at `0x09`, jumps to `0x1234`,
and the following `RET` restores `0x0103` and stack pointer `0x07`. -/
theorem instrLCALL_return_address_and_instrRET_witness :
    (lcallALU.InstrLCALL 0x1234).ProgCount = 0x1234 ∧
    (lcallALU.InstrLCALL 0x1234).InternalRAM 0x08 = 0x03 ∧
    (lcallALU.InstrLCALL 0x1234).InternalRAM 0x09 = 0x01 ∧
    ((lcallALU.InstrLCALL 0x1234).InstrRET).ProgCount = 0x0103 ∧
    ((lcallALU.InstrLCALL 0x1234).InstrRET).StackPtr = 0x07 :=
  instrLCALL_return_address_and_instrRET lcallALU 0x1234 (by decide) (by decide)

end Mu51
